import Mathlib

/-!
Shallow embedding of the GURLS-Bot Telegram front-end
(`internal/bot/bot.go`) in Lean 4.

Strings are modelled as Lean `String` (lists of characters); all inputs of
interest are ASCII, where Go byte indices and character indices coincide.
The remote gRPC backend, the wall clock `time.Now()`, Go's
`time.ParseDuration` and `time.Time.Format` are external collaborators and
enter the model as explicit function parameters; everything else is
translated directly from the Go source.
-/

namespace GURLSBot

/-! ## Character classes of the Go regexes (RE2, ASCII classes) -/

/-- RE2 `\s` (Perl class): `[\t\n\f\r ]`; `\S` is its complement. -/
def reIsSpace (c : Char) : Bool :=
  c = ' ' || c = '\t' || c = '\n' || c = '\x0c' || c = '\r'

/-- RE2 `\w`: `[0-9A-Za-z_]`. -/
def reIsWord (c : Char) : Bool :=
  ('0' ≤ c && c ≤ '9') || ('a' ≤ c && c ≤ 'z') || ('A' ≤ c && c ≤ 'Z') || c = '_'

/-- Character class `[a-zA-Z0-9\-]` of `customAliasRegex`. -/
def isAliasChar (c : Char) : Bool :=
  ('a' ≤ c && c ≤ 'z') || ('A' ≤ c && c ≤ 'Z') || ('0' ≤ c && c ≤ '9') || c = '-'

/-- Character class `[\w\-]` of `aliasRegex`: word characters plus hyphen. -/
def isWordOrHyphen (c : Char) : Bool :=
  reIsWord c || c = '-'

/-- `unicode.IsSpace` (used by `strings.TrimSpace`): Latin-1 white space
plus the Unicode space separators. -/
def unicodeIsSpace (c : Char) : Bool :=
  c = ' ' || c = '\t' || c = '\n' || c = '\x0b' || c = '\x0c' || c = '\r' ||
  c = '\x85' || c = '\xA0' || c = '\u1680' ||
  ('\u2000' ≤ c && c ≤ '\u200A') ||
  c = '\u2028' || c = '\u2029' || c = '\u202F' || c = '\u205F' || c = '\u3000'

/-- `strings.TrimSpace`: strip leading and trailing Unicode white space. -/
def trimSpace (s : String) : String :=
  ⟨((s.data.dropWhile unicodeIsSpace).reverse.dropWhile unicodeIsSpace).reverse⟩

/-! ## `urlRegex = https?://\S+` — `FindString` / `MatchString` -/

/-- Try to match `https?://\S+` anchored at the head of `l`
(leftmost-first: the optional `s` is preferred, `\S+` is greedy). -/
def urlMatchAt (l : List Char) : Option (List Char) :=
  if ("https://".data).isPrefixOf l then
    let run := (l.drop 8).takeWhile (fun c => !reIsSpace c)
    if run.isEmpty then none else some ("https://".data ++ run)
  else if ("http://".data).isPrefixOf l then
    let run := (l.drop 7).takeWhile (fun c => !reIsSpace c)
    if run.isEmpty then none else some ("http://".data ++ run)
  else none

/-- Scan left to right for the leftmost match of `urlRegex`. -/
def findURLAux : List Char → Option (List Char)
  | [] => none
  | c :: rest =>
    match urlMatchAt (c :: rest) with
    | some m => some m
    | none => findURLAux rest

/-- `urlRegex.FindString s` as an `Option` (`none` ↔ Go returns `""`;
the pattern cannot match the empty string). -/
def urlFindString (s : String) : Option String :=
  (findURLAux s.data).map (fun l => ⟨l⟩)

/-- `urlRegex.MatchString`. -/
def urlMatchString (s : String) : Bool :=
  (urlFindString s).isSome

/-! ## `aliasRegex`, `expiresInRegex` — leftmost `lit` followed by a
nonempty run of class characters; the capture group is the run. -/

/-- Leftmost match of `lit` followed by a nonempty maximal run of
characters satisfying `p`; returns the captured run. On a position where
`lit` matches but no class character follows, the scan resumes at the next
position, as RE2 does. -/
def findKVAux (lit : List Char) (p : Char → Bool) : List Char → Option (List Char)
  | [] => none
  | c :: rest =>
    if lit.isPrefixOf (c :: rest) then
      let run := ((c :: rest).drop lit.length).takeWhile p
      if run.isEmpty then findKVAux lit p rest else some run
    else findKVAux lit p rest

/-- `aliasRegex = alias=([\w\-]+)`: the captured submatch. -/
def aliasFindSubmatch (s : String) : Option String :=
  (findKVAux "alias=".data isWordOrHyphen s.data).map (fun l => ⟨l⟩)

/-- `expiresInRegex = expires_in=([\w\d]+)` (`[\w\d]` = `\w`): the
captured submatch. -/
def expiresInFindSubmatch (s : String) : Option String :=
  (findKVAux "expires_in=".data reIsWord s.data).map (fun l => ⟨l⟩)

/-! ## `titleRegex = title="([^"]+)"` -/

/-- Leftmost match of `title="([^"]+)"`; the capture is the maximal
nonempty run of non-quote characters after `title="`, which must be
followed by a closing quote. -/
def findTitleAux : List Char → Option (List Char)
  | [] => none
  | c :: rest =>
    if ("title=\"".data).isPrefixOf (c :: rest) then
      let after := (c :: rest).drop 7
      let run := after.takeWhile (fun d => d ≠ '"')
      if run.isEmpty || run.length == after.length then findTitleAux rest
      else some run
    else findTitleAux rest

/-- `titleRegex.FindStringSubmatch`: the captured group. -/
def titleFindSubmatch (s : String) : Option String :=
  (findTitleAux s.data).map (fun l => ⟨l⟩)

/-! ## `customAliasRegex = ^[a-zA-Z0-9\-]{1,20}$` -/

/-- `customAliasRegex.MatchString`: the whole string is 1 to 20
characters, each a letter, digit or hyphen. -/
def customAliasMatch (s : String) : Bool :=
  s.data.all isAliasChar && 1 ≤ s.length && s.length ≤ 20

/-! ## Data model -/

/-- `CreateLinkRequest` (proto message as used by `bot.go`): pointers
become `Option`, `timestamppb` expiry instants become abstract `Int`
instants. -/
structure CreateLinkRequest where
  originalUrl : String
  userTgId    : Int
  title       : Option String := none
  customAlias : Option String := none
  expiresAt   : Option Int := none
deriving DecidableEq

/-- The gRPC status codes `bot.go` branches on, with `other` standing for
every remaining code and every non-status error. -/
inductive StatusCode where
  | alreadyExists
  | notFound
  | other
deriving DecidableEq

/-- Result of a `CreateLink` backend call. -/
inductive CreateLinkResult where
  | ok (newAlias : String)
  | err (code : StatusCode)
deriving DecidableEq

/-- A stats payload (`GetLinkStatsResponse`): `ClicksByDevice` is a Go
`map[string]int64`; the model carries one concrete enumeration of its
entries (the order in which a range loop visits them, which Go does not
fix). -/
structure LinkStats where
  originalUrl    : String
  title          : Option String := none
  clickCount     : Int := 0
  expiresAt      : Option Int := none
  clicksByDevice : List (String × Int) := []
deriving DecidableEq

/-- Result of a `GetLinkStats` backend call. -/
inductive StatsResult where
  | ok (stats : LinkStats)
  | err (code : StatusCode)
deriving DecidableEq

/-- One outbound request to the backend adapter. -/
inductive BackendCall where
  | createLink (req : CreateLinkRequest)
  | getLinkStats (linkAlias : String)
  | deleteLink (linkAlias : String)
  | listUserLinks (userTgId : Int)
deriving DecidableEq

/-- Per-user conversation state (`UserState.State` plus the carried
`CustomAlias`); absence of a map entry is `normal` (`getUserState`). -/
inductive ConvState where
  | normal
  | waitingForAlias
  | waitingForURL (customAlias : String)
deriving DecidableEq

/-- What a handler hands to `sendMessage`: either a message text, or the
run panics on a nil-pointer dereference before any send. -/
inductive SendOutcome where
  | sent (text : String)
  | panicNilDeref
deriving DecidableEq

/-! ## Message constants (from the `const` block of `bot.go`) -/

def msgUseShortenCommand : String :=
  "Send a URL to create a short link or use the buttons below:"

def msgInvalidShortenFormat : String :=
  "Invalid format. Please send a valid URL (e.g., https://example.com)"

/-- `fmt.Sprintf(msgLinkSuccessfullyShortened, shortURL)`. -/
def msgLinkSuccessfullyShortened (shortURL : String) : String :=
  "Link created successfully.\n\nShort URL: " ++ shortURL

/-- `fmt.Sprintf(msgInvalidCommandFormat, cmd)`. -/
def msgInvalidCommandFormat (cmd : String) : String :=
  "Invalid command format. Use: /" ++ cmd ++ " <alias>"

/-- `fmt.Sprintf(msgLinkNotFound, alias)`. -/
def msgLinkNotFound (a : String) : String :=
  "Link with alias '" ++ a ++ "' not found."

def msgInternalError : String :=
  "Internal error occurred. Please try again later."

/-- `fmt.Sprintf(msgAliasTaken, alias)`. -/
def msgAliasTaken (a : String) : String :=
  "Alias '" ++ a ++ "' is already taken. Please choose another one."

/-- `fmt.Sprintf(msgSendUrlWithAlias, alias)`. -/
def msgSendUrlWithAlias (a : String) : String :=
  "Now send the URL you want to shorten with alias '" ++ a ++ "':"

/-- Literal in `handleCustomAliasInput`. -/
def msgInvalidAliasFormat : String :=
  "Invalid alias format. Use only letters, numbers, and hyphens (1-20 characters)."

/-! ## `/shorten` — request construction and response rendering -/

/-- The `CreateLinkRequest` built by `handleShortenCommand` from the raw
argument text, or `none` when no URL-shaped substring is found (the
handler then replies `msgInvalidShortenFormat` and calls nothing).
`now` is the instant `time.Now()` and `parseDuration` is Go's
`time.ParseDuration`, both external inputs. -/
def buildShortenRequest (chatID : Int) (args : String) (now : Int)
    (parseDuration : String → Option Int) : Option CreateLinkRequest :=
  match urlFindString args with
  | none => none
  | some urlMatch =>
    some { originalUrl := urlMatch
           userTgId := chatID
           title := titleFindSubmatch args
           customAlias := aliasFindSubmatch args
           expiresAt :=
             match expiresInFindSubmatch args with
             | some v =>
               match parseDuration v with
               | some d => some (now + d)
               | none => none
             | none => none }

/-- The reply `handleShortenCommand` sends after the `CreateLink` call:
on `AlreadyExists` it dereferences `*req.CustomAlias`, a nil-pointer
panic when the request carries no custom alias. -/
def createLinkRespond (req : CreateLinkRequest) (baseURL : String)
    (res : CreateLinkResult) : SendOutcome :=
  match res with
  | .err code =>
    if code = .alreadyExists then
      match req.customAlias with
      | some a => .sent (msgAliasTaken a)
      | none => .panicNilDeref
    else .sent msgInternalError
  | .ok newAlias => .sent (msgLinkSuccessfullyShortened (baseURL ++ "/" ++ newAlias))

/-- One run of a message handler: the backend calls it makes, the reply it
sends, and the user's conversation state afterwards. -/
structure MessageStep where
  calls : List BackendCall
  reply : SendOutcome
  state : ConvState
deriving DecidableEq

/-- `handleShortenCommand` (state is never touched on this path; the
caller's state argument is threaded through unchanged by `handleMessage`'s
default branch, which is `normal`). `backend` maps the request to the
call's result. -/
def handleShortenCommand (chatID : Int) (args : String) (now : Int)
    (parseDuration : String → Option Int) (baseURL : String)
    (backend : CreateLinkRequest → CreateLinkResult) : MessageStep :=
  match buildShortenRequest chatID args now parseDuration with
  | none => ⟨[], .sent msgInvalidShortenFormat, .normal⟩
  | some req => ⟨[.createLink req], createLinkRespond req baseURL (backend req), .normal⟩

/-! ## Custom-alias conversation handlers -/

/-- `handleCustomAliasInput`: trims the text, validates it against
`customAliasRegex`; on match stores `StateWaitingForURL` with the alias
and prompts for a URL, on mismatch replies with the format message and
leaves the state map untouched (the user stays in `waiting_for_alias`). -/
def handleCustomAliasInput (text : String) : MessageStep :=
  let a := trimSpace text
  if customAliasMatch a then
    ⟨[], .sent (msgSendUrlWithAlias a), .waitingForURL a⟩
  else
    ⟨[], .sent msgInvalidAliasFormat, .waitingForAlias⟩

/-- The reply `handleURLInputWithAlias` sends after its `CreateLink`
call (here the alias-taken branch uses the local `customAlias`, never a
nil pointer). -/
def urlWithAliasRespond (customAlias baseURL : String)
    (res : CreateLinkResult) : SendOutcome :=
  match res with
  | .err code =>
    if code = .alreadyExists then .sent (msgAliasTaken customAlias)
    else .sent msgInternalError
  | .ok newAlias => .sent (msgLinkSuccessfullyShortened (baseURL ++ "/" ++ newAlias))

/-- `handleURLInputWithAlias`: `defer b.resetUserState(userID)` resets the
state to `normal` on every path. -/
def handleURLInputWithAlias (userID : Int) (text customAlias : String)
    (baseURL : String) (backend : CreateLinkRequest → CreateLinkResult) :
    MessageStep :=
  match urlFindString text with
  | none => ⟨[], .sent msgInvalidShortenFormat, .normal⟩
  | some urlMatch =>
    let req : CreateLinkRequest :=
      { originalUrl := urlMatch, userTgId := userID, customAlias := some customAlias }
    ⟨[.createLink req], urlWithAliasRespond customAlias baseURL (backend req), .normal⟩

/-- `handleMessage`: dispatch a free-text message on the user's current
conversation state. -/
def handleMessage (userID : Int) (state : ConvState) (text : String)
    (now : Int) (parseDuration : String → Option Int) (baseURL : String)
    (backend : CreateLinkRequest → CreateLinkResult) : MessageStep :=
  match state with
  | .waitingForAlias => handleCustomAliasInput text
  | .waitingForURL customAlias =>
    handleURLInputWithAlias userID text customAlias baseURL backend
  | .normal =>
    if urlMatchString text then
      handleShortenCommand userID text now parseDuration baseURL backend
    else
      ⟨[], .sent msgUseShortenCommand, .normal⟩

/-! ## `/stats` — formatting and handler -/

/-- The `By Device` block of the stats message: empty when the map is
empty, otherwise the header plus one `\n- device: count` line per entry,
in the enumeration order of the range loop. -/
def formatDeviceStats (entries : List (String × Int)) : String :=
  if entries.isEmpty then ""
  else entries.foldl
    (fun acc e => acc ++ "\n- " ++ e.1 ++ ": " ++ toString e.2)
    "\n\nBy Device:"

/-- The success text of `handleStatsCommand` (lines 253–272 of `bot.go`);
`formatTime` is `time.Time.Format "2006-01-02 15:04 MST"`, an external
input. -/
def formatStatsText (a : String) (s : LinkStats) (formatTime : Int → String) :
    String :=
  let expiresText :=
    match s.expiresAt with
    | some t => formatTime t
    | none => "Never"
  let titleText :=
    match s.title with
    | some t => if t = "" then "" else "\nTitle: " ++ t
    | none => ""
  "Link Statistics: " ++ a ++ titleText ++
    "\n\nOriginal URL: " ++ s.originalUrl ++
    "\nTotal Clicks: " ++ toString s.clickCount ++
    "\nExpires: " ++ expiresText ++
    formatDeviceStats s.clicksByDevice

/-- One run of a command handler that keeps no conversation state. -/
structure CommandStep where
  calls : List BackendCall
  reply : SendOutcome
deriving DecidableEq

/-- `handleStatsCommand`: trim the argument, reject an empty alias without
calling the backend, otherwise one `GetLinkStats` call whose result is
rendered (`NotFound` → not-found text, any other failure → internal
error). -/
def handleStatsCommand (aliasArg : String) (formatTime : Int → String)
    (backend : String → StatsResult) : CommandStep :=
  let a := trimSpace aliasArg
  if a = "" then ⟨[], .sent (msgInvalidCommandFormat "stats")⟩
  else
    match backend a with
    | .err code =>
      if code = .notFound then ⟨[.getLinkStats a], .sent (msgLinkNotFound a)⟩
      else ⟨[.getLinkStats a], .sent msgInternalError⟩
    | .ok stats => ⟨[.getLinkStats a], .sent (formatStatsText a stats formatTime)⟩

/-! ## `/my_links` — list rendering -/

/-- One entry of a `ListUserLinksResponse`. -/
structure LinkSummary where
  linkAlias   : String
  originalUrl : String
  title       : Option String := none
deriving DecidableEq

/-- The display title chosen in `handleMyLinksCommand`: the link's title
when present and nonempty, else its original URL. -/
def displayTitle (link : LinkSummary) : String :=
  match link.title with
  | some t => if t = "" then link.originalUrl else t
  | none => link.originalUrl

/-- The truncation applied in `handleMyLinksCommand`:
`if len(title) > 50 { title = title[:47] + "..." }`. -/
def truncateTitle (t : String) : String :=
  if t.length > 50 then (⟨t.data.take 47⟩ : String) ++ "..." else t

/-- The title as rendered on a `my_links` list line. -/
def renderedListTitle (link : LinkSummary) : String :=
  truncateTitle (displayTitle link)

/-! ## Callback-query router — backend calls only -/

/-- `strings.TrimPrefix`. -/
def trimPrefixFn (pre s : String) : String :=
  if pre.data.isPrefixOf s.data then ⟨s.data.drop pre.data.length⟩ else s

/-- The backend calls `handleDeleteCommand` makes: none when the trimmed
alias is empty, else one `DeleteLink`. -/
def deleteCommandCalls (aliasArg : String) : List BackendCall :=
  let a := trimSpace aliasArg
  if a = "" then [] else [.deleteLink a]

/-- The backend calls `handleStatsCommand` makes. -/
def statsCommandCalls (aliasArg : String) : List BackendCall :=
  let a := trimSpace aliasArg
  if a = "" then [] else [.getLinkStats a]

/-- The backend calls made while processing one button press
(`handleCallbackQuery`, with the branches in source order):
`create_link`, `help` and `custom_alias` only send prompts or menus,
`my_links` always issues one `ListUserLinks`, `stats_`/`delete_` prefixed
tokens delegate to the alias-scoped handlers, and any other token
(including `cancel`) falls through with no action. -/
def callbackBackendCalls (chatID : Int) (data : String) : List BackendCall :=
  if data = "create_link" then []
  else if data = "my_links" then [.listUserLinks chatID]
  else if data = "help" then []
  else if ("stats_".data).isPrefixOf data.data then
    statsCommandCalls (trimPrefixFn "stats_" data)
  else if ("delete_".data).isPrefixOf data.data then
    deleteCommandCalls (trimPrefixFn "delete_" data)
  else if data = "custom_alias" then []
  else []

/-! ## Helper lemmas -/

/-- A captured `findKVAux` run is nonempty and consists of class
characters. -/
theorem findKVAux_some {lit : List Char} {p : Char → Bool} {l r : List Char}
    (h : findKVAux lit p l = some r) : r ≠ [] ∧ r.all p = true := by
  induction l with
  | nil => simp [findKVAux] at h
  | cons c rest ih =>
    simp only [findKVAux] at h
    split at h
    · split at h
      · exact ih h
      · next hrun =>
        cases h
        refine ⟨?_, ?_⟩
        · intro hnil
          rw [hnil] at hrun
          simp at hrun
        · simp only [List.all_eq_true]
          intro a ha
          exact List.mem_takeWhile_imp ha
    · exact ih h

/-! ## Claims -/

/-- A `my_links` entry whose display title has exactly 48 characters. -/
def linkWith48CharURL : LinkSummary :=
  { linkAlias := "a1", originalUrl := ⟨List.replicate 48 'a'⟩ }

/-- A `my_links` entry whose display title has exactly 51 characters. -/
def linkWith51CharURL : LinkSummary :=
  { linkAlias := "a1", originalUrl := ⟨List.replicate 51 'a'⟩ }

/-- C3 counterexample: a 48-character display title is longer than 47
characters, yet the `my_links` list renders it unchanged rather than as
its first 47 characters plus `"..."`. -/
theorem c3_counterexample :
    ((displayTitle linkWith48CharURL).length > 47 ∧
      renderedListTitle linkWith48CharURL = ⟨List.replicate 48 'a'⟩) ∧
    (⟨List.replicate 48 'a'⟩ : String) ≠
      (⟨List.replicate 47 'a'⟩ : String) ++ "..." := by
  refine ⟨⟨by decide, by decide⟩, by decide⟩

/-- C3 (amended): in the `my_links` list view a display title longer than
50 characters is rendered as its first 47 characters followed by `"..."`;
titles of 50 characters or fewer are rendered unchanged. -/
theorem c3_list_title_truncation (link : LinkSummary) :
    (50 < (displayTitle link).length →
      renderedListTitle link =
        (⟨(displayTitle link).data.take 47⟩ : String) ++ "...") ∧
    ((displayTitle link).length ≤ 50 →
      renderedListTitle link = displayTitle link) := by
  unfold renderedListTitle truncateTitle
  constructor
  · intro h
    rw [if_pos h]
  · intro h
    rw [if_neg (by omega)]

/-- C3 witness: a concrete 51-character URL is truncated to 47 characters
plus the marker. -/
theorem c3_list_title_truncation_witness :
    renderedListTitle linkWith51CharURL =
      (⟨List.replicate 47 'a'⟩ : String) ++ "..." := by
  have h := (c3_list_title_truncation linkWith51CharURL).1 (by decide)
  simpa using h

/-- C4 counterexample: `/shorten https://x.com alias=a_b` produces a
request whose custom alias is `"a_b"`, which contains an underscore and
so violates the 1–20 letters/digits/hyphen constraint. -/
theorem c4_counterexample :
    buildShortenRequest 7 "https://x.com alias=a_b" 0 (fun _ => none) =
      some { originalUrl := "https://x.com", userTgId := 7, customAlias := some "a_b" } ∧
    customAliasMatch "a_b" = false := by
  refine ⟨rfl, by decide⟩

/-- C4 (amended): the custom alias placed in a `/shorten` request is the
submatch of `alias=([\w\-]+)`: always nonempty and made of word
characters (letters, digits, underscore) or hyphens, but NOT validated
against the 1–20 letters/digits/hyphen constraint (underscores and
arbitrary lengths pass through). -/
theorem c4_shorten_alias_is_word_or_hyphen_run
    (chatID now : Int) (parseDuration : String → Option Int) (args : String)
    (req : CreateLinkRequest) (a : String)
    (h1 : buildShortenRequest chatID args now parseDuration = some req)
    (h2 : req.customAlias = some a) :
    a ≠ "" ∧ a.data.all isWordOrHyphen = true := by
  unfold buildShortenRequest at h1
  rcases hu : urlFindString args with _ | u
  · rw [hu] at h1
    cases h1
  · rw [hu] at h1
    cases h1
    simp only [aliasFindSubmatch, Option.map_eq_some'] at h2
    obtain ⟨r, hr, hra⟩ := h2
    obtain ⟨hne, hall⟩ := findKVAux_some hr
    subst hra
    refine ⟨?_, hall⟩
    intro hemp
    apply hne
    have : ("" : String).data = [] := rfl
    rw [← hemp] at this
    exact this

/-- C4 witness: the theorem applied to the counterexample input shows the
captured alias `"a_b"` is a nonempty word-or-hyphen run. -/
theorem c4_shorten_alias_is_word_or_hyphen_run_witness :
    ("a_b" : String) ≠ "" ∧ ("a_b" : String).data.all isWordOrHyphen = true :=
  c4_shorten_alias_is_word_or_hyphen_run 7 0 (fun _ => none)
    "https://x.com alias=a_b"
    { originalUrl := "https://x.com", userTgId := 7, customAlias := some "a_b" }
    "a_b" rfl rfl

/-- C5: in state `AwaitingURLForAlias(alias)`, a free-text message with a
URL-shaped substring issues exactly one `CreateLink` call carrying that
substring and the stored alias, and the state is reset to `Idle`
regardless of the call's outcome (the statement holds for every
`backend`); a message without one makes no backend call, replies with the
format-error message, and also resets the state. -/
theorem c5_awaiting_url_for_alias
    (userID : Int) (text customAlias baseURL : String)
    (backend : CreateLinkRequest → CreateLinkResult) :
    (handleURLInputWithAlias userID text customAlias baseURL backend).state =
      .normal ∧
    (∀ u, urlFindString text = some u →
      (handleURLInputWithAlias userID text customAlias baseURL backend).calls =
        [.createLink { originalUrl := u, userTgId := userID
                       customAlias := some customAlias }]) ∧
    (urlFindString text = none →
      (handleURLInputWithAlias userID text customAlias baseURL backend).calls
          = [] ∧
      (handleURLInputWithAlias userID text customAlias baseURL backend).reply
          = .sent msgInvalidShortenFormat) := by
  unfold handleURLInputWithAlias
  refine ⟨?_, ?_, ?_⟩
  · rcases h : urlFindString text with _ | u <;> simp [h]
  · intro u hu
    rw [hu]
  · intro hn
    rw [hn]
    exact ⟨rfl, rfl⟩

/-- C5 witness: the documented example —
`AwaitingURLForAlias("foo")` with text `"here: https://a.b/c extra"` —
yields one `CreateLink` call with URL `https://a.b/c` and alias `"foo"`,
and the state resets to `Idle` even though the backend fails. -/
theorem c5_awaiting_url_for_alias_witness :
    (handleURLInputWithAlias 9 "here: https://a.b/c extra" "foo" "b"
        (fun _ => .err .other)).calls =
      [.createLink { originalUrl := "https://a.b/c", userTgId := 9
                     customAlias := some "foo" }] ∧
    (handleURLInputWithAlias 9 "here: https://a.b/c extra" "foo" "b"
        (fun _ => .err .other)).state = .normal :=
  ⟨(c5_awaiting_url_for_alias 9 "here: https://a.b/c extra" "foo" "b"
      (fun _ => .err .other)).2.1 "https://a.b/c" rfl,
   (c5_awaiting_url_for_alias 9 "here: https://a.b/c extra" "foo" "b"
      (fun _ => .err .other)).1⟩

/-- C6 counterexample: the text `" ab "` does not match
`^[A-Za-z0-9-]{1,20}$`, yet instead of a validation failure with the
state left at `AwaitingCustomAlias`, the handler trims it and moves to
`AwaitingURLForAlias("ab")`. -/
theorem c6_counterexample :
    customAliasMatch " ab " = false ∧
    handleCustomAliasInput " ab " =
      ⟨[], .sent (msgSendUrlWithAlias "ab"), .waitingForURL "ab"⟩ := by
  refine ⟨by decide, rfl⟩

/-- C6 (amended): in state `AwaitingCustomAlias` the free text is first
trimmed of surrounding white space; if the trimmed text matches
`^[A-Za-z0-9-]{1,20}$`, the state becomes `AwaitingURLForAlias` carrying
the trimmed text, the URL prompt is sent and no backend call occurs; if
the trimmed text does not match, a validation-failure message is sent and
the state stays `AwaitingCustomAlias`, again with no backend call. -/
theorem c6_custom_alias_input_validates_trimmed (text : String) :
    (customAliasMatch (trimSpace text) = true →
      handleCustomAliasInput text =
        ⟨[], .sent (msgSendUrlWithAlias (trimSpace text)),
         .waitingForURL (trimSpace text)⟩) ∧
    (customAliasMatch (trimSpace text) = false →
      handleCustomAliasInput text =
        ⟨[], .sent msgInvalidAliasFormat, .waitingForAlias⟩) := by
  unfold handleCustomAliasInput
  constructor
  · intro h
    rw [if_pos h]
  · intro h
    rw [if_neg (by simp [h])]

/-- C6 witness: a valid alias `"my-alias"` is carried verbatim into
`AwaitingURLForAlias`. -/
theorem c6_custom_alias_input_validates_trimmed_witness :
    handleCustomAliasInput "my-alias" =
      ⟨[], .sent (msgSendUrlWithAlias "my-alias"), .waitingForURL "my-alias"⟩ :=
  (c6_custom_alias_input_validates_trimmed "my-alias").1 (by decide)


/-- C1 counterexample: in `Idle` state the free text
`"https://x.com alias=ab"` is routed through `handleShortenCommand` with
the full text as argument, so the built request carries the embedded
`alias=` modifier — contradicting "the resulting request carries no
custom alias taken from other tokens in the text". -/
theorem c1_counterexample :
    (handleMessage 7 .normal "https://x.com alias=ab" 0 (fun _ => none) "b"
        (fun _ => .ok "z")).calls =
      [.createLink { originalUrl := "https://x.com", userTgId := 7, customAlias := some "ab" }] ∧
    (some "ab" : Option String) ≠ none :=
  ⟨rfl, by decide⟩

/-- C1 (amended): in `Idle` state a free-text message containing a
URL-shaped substring is routed to the create-link intent with the FULL
text as the `/shorten` argument: the request URL is just the first
URL-shaped substring, but embedded `title=`, `alias=` (and `expires_in=`)
tokens in the text are parsed into the request rather than ignored. -/
theorem c1_idle_url_text_routed_with_modifiers
    (userID now : Int) (text u : String) (parseDuration : String → Option Int)
    (baseURL : String) (backend : CreateLinkRequest → CreateLinkResult)
    (h : urlFindString text = some u) :
    handleMessage userID .normal text now parseDuration baseURL backend =
      handleShortenCommand userID text now parseDuration baseURL backend ∧
    ∃ req, buildShortenRequest userID text now parseDuration = some req ∧
      req.originalUrl = u ∧
      req.title = titleFindSubmatch text ∧
      req.customAlias = aliasFindSubmatch text := by
  have hm : urlMatchString text = true := by
    unfold urlMatchString
    rw [h]
    rfl
  constructor
  · simp [handleMessage, hm]
  · unfold buildShortenRequest
    rw [h]
    exact ⟨_, rfl, rfl, rfl, rfl⟩

/-- C1 witness: the amended routing at the counterexample input. -/
theorem c1_idle_url_text_routed_with_modifiers_witness :
    handleMessage 7 .normal "https://x.com alias=ab" 0 (fun _ => none) "b"
        (fun _ => .ok "z") =
      handleShortenCommand 7 "https://x.com alias=ab" 0 (fun _ => none) "b"
        (fun _ => .ok "z") ∧
    ∃ req, buildShortenRequest 7 "https://x.com alias=ab" 0 (fun _ => none) =
        some req ∧
      req.originalUrl = "https://x.com" ∧
      req.title = titleFindSubmatch "https://x.com alias=ab" ∧
      req.customAlias = aliasFindSubmatch "https://x.com alias=ab" :=
  c1_idle_url_text_routed_with_modifiers 7 0 "https://x.com alias=ab"
    "https://x.com" (fun _ => none) "b" (fun _ => .ok "z") rfl

/-- C2 counterexample: the exact token `my_links` is neither
`stats_`/`delete_`-prefixed nor `create_link`, yet processing it issues a
`ListUserLinks` backend call — contradicting "no other exact token
(my_links, help, custom_alias, cancel) causes a backend call". -/
theorem c2_counterexample :
    ("my_links" : String) ≠ "create_link" ∧
    ¬ ("stats_".data.isPrefixOf ("my_links" : String).data) ∧
    ¬ ("delete_".data.isPrefixOf ("my_links" : String).data) ∧
    callbackBackendCalls 5 "my_links" = [.listUserLinks 5] := by
  refine ⟨by decide, by decide, by decide, rfl⟩

/-- C2 (amended): for every button-press token, processing the event
triggers no backend call unless the token is exactly `my_links` (one
`ListUserLinks` call) or carries a `stats_` or `delete_` prefix; the
exact tokens `create_link`, `help`, `custom_alias` and `cancel` trigger
none. -/
theorem c2_callback_calls_require_my_links_stats_or_delete
    (chatID : Int) (data : String)
    (h : callbackBackendCalls chatID data ≠ []) :
    data = "my_links" ∨ "stats_".data.isPrefixOf data.data ∨
      "delete_".data.isPrefixOf data.data := by
  unfold callbackBackendCalls at h
  split_ifs at h with h1 h2 h3 h4 h5 h6
  · exact absurd rfl h
  · exact Or.inl h2
  · exact absurd rfl h
  · exact Or.inr (Or.inl h4)
  · exact Or.inr (Or.inr h5)
  · exact absurd rfl h
  · exact absurd rfl h

/-- C2 witness: the theorem applied to the token `my_links`, whose call
list is nonempty. -/
theorem c2_callback_calls_require_my_links_stats_or_delete_witness :
    ("my_links" : String) = "my_links" ∨
      "stats_".data.isPrefixOf ("my_links" : String).data ∨
      "delete_".data.isPrefixOf ("my_links" : String).data :=
  c2_callback_calls_require_my_links_stats_or_delete 3 "my_links" (by decide)

/-- C7: when the `/shorten` argument text contains a URL and an
`expires_in=` modifier, the request is built and dispatched in one
`CreateLink` call whether or not the value parses: an unparseable value
leaves the expiry unset (silently ignored), a parseable one sets the
expiry to now plus the parsed duration. -/
theorem c7_expires_in_parse_failure_silently_ignored
    (chatID now : Int) (parseDuration : String → Option Int)
    (baseURL : String) (backend : CreateLinkRequest → CreateLinkResult)
    (args u v : String)
    (hu : urlFindString args = some u)
    (hv : expiresInFindSubmatch args = some v) :
    ∃ req, buildShortenRequest chatID args now parseDuration = some req ∧
      req.originalUrl = u ∧
      (parseDuration v = none → req.expiresAt = none) ∧
      (∀ d, parseDuration v = some d → req.expiresAt = some (now + d)) ∧
      (handleShortenCommand chatID args now parseDuration baseURL backend).calls =
        [.createLink req] := by
  have hb : buildShortenRequest chatID args now parseDuration =
      some { originalUrl := u
             userTgId := chatID
             title := titleFindSubmatch args
             customAlias := aliasFindSubmatch args
             expiresAt :=
               match parseDuration v with
               | some d => some (now + d)
               | none => none } := by
    unfold buildShortenRequest
    rw [hu, hv]
  refine ⟨_, hb, rfl, ?_, ?_, ?_⟩
  · intro hn
    simp only [hn]
  · intro d hd
    simp only [hd]
  · unfold handleShortenCommand
    rw [hb]

/-- C7 witness: `/shorten https://x.com expires_in=notaduration` under a
duration parser that rejects the value still dispatches, with no expiry
set. -/
theorem c7_expires_in_parse_failure_silently_ignored_witness :
    ∃ req, buildShortenRequest 7 "https://x.com expires_in=notaduration" 100
        (fun _ => none) = some req ∧
      req.originalUrl = "https://x.com" ∧
      ((fun (_ : String) => (none : Option Int)) "notaduration" = none →
        req.expiresAt = none) ∧
      (∀ d, (fun (_ : String) => (none : Option Int)) "notaduration" = some d →
        req.expiresAt = some (100 + d)) ∧
      (handleShortenCommand 7 "https://x.com expires_in=notaduration" 100
          (fun _ => none) "b" (fun _ => .ok "z")).calls = [.createLink req] :=
  c7_expires_in_parse_failure_silently_ignored 7 100 (fun _ => none) "b"
    (fun _ => .ok "z") "https://x.com expires_in=notaduration" "https://x.com"
    "notaduration" rfl rfl

/-- C8: the three error templates: `NotFound` on `/stats a` renders
`"Link with alias 'a' not found."`, `AlreadyExists` on a create with a
requested custom alias `a` renders
`"Alias 'a' is already taken. Please choose another one."` (on both
create paths), and every other failure of these calls renders
`"Internal error occurred. Please try again later."`. -/
theorem c8_error_templates
    (a baseURL : String) (formatTime : Int → String)
    (backend : String → StatsResult) (req : CreateLinkRequest)
    (ha : trimSpace a = a) (hne : a ≠ "") :
    (backend a = .err .notFound →
      (handleStatsCommand a formatTime backend).reply =
        .sent ("Link with alias '" ++ a ++ "' not found.")) ∧
    (∀ c : StatusCode, c ≠ .notFound → backend a = .err c →
      (handleStatsCommand a formatTime backend).reply =
        .sent "Internal error occurred. Please try again later.") ∧
    (req.customAlias = some a →
      createLinkRespond req baseURL (.err .alreadyExists) =
        .sent ("Alias '" ++ a ++ "' is already taken. Please choose another one.")) ∧
    (urlWithAliasRespond a baseURL (.err .alreadyExists) =
      .sent ("Alias '" ++ a ++ "' is already taken. Please choose another one.")) ∧
    (∀ c : StatusCode, c ≠ .alreadyExists →
      createLinkRespond req baseURL (.err c) =
        .sent "Internal error occurred. Please try again later." ∧
      urlWithAliasRespond a baseURL (.err c) =
        .sent "Internal error occurred. Please try again later.") := by
  refine ⟨?_, ?_, ?_, ?_, ?_⟩
  · intro hb
    simp [handleStatsCommand, ha, hne, hb, msgLinkNotFound]
  · intro c hc hb
    simp [handleStatsCommand, ha, hne, hb, hc, msgInternalError]
  · intro hca
    simp [createLinkRespond, hca, msgAliasTaken]
  · simp [urlWithAliasRespond, msgAliasTaken]
  · intro c hc
    constructor
    · simp [createLinkRespond, hc, msgInternalError]
    · simp [urlWithAliasRespond, hc, msgInternalError]

/-- C8 witness: the spec's two examples — `NotFound` on alias
`"missing"` and `AlreadyExists` on requested alias `"taken"`. -/
theorem c8_error_templates_witness :
    (handleStatsCommand "missing" (fun _ => "t")
        (fun _ => .err .notFound)).reply =
      .sent "Link with alias 'missing' not found." ∧
    urlWithAliasRespond "taken" "b" (.err .alreadyExists) =
      .sent "Alias 'taken' is already taken. Please choose another one." := by
  constructor
  · exact (c8_error_templates "missing" "b" (fun _ => "t")
      (fun _ => .err .notFound) { originalUrl := "u", userTgId := 1 }
      rfl (by decide)).1 rfl
  · exact (c8_error_templates "taken" "b" (fun _ => "t")
      (fun _ => .err .notFound) { originalUrl := "u", userTgId := 1 }
      rfl (by decide)).2.2.2.1

/-- A stats payload whose device map `{android ↦ 1, ios ↦ 2}` is
enumerated android-first. -/
def statsDevicesAndroidFirst : LinkStats :=
  { originalUrl := "https://x.com", clicksByDevice := [("android", 1), ("ios", 2)] }

/-- The same stats payload with the device map enumerated ios-first. -/
def statsDevicesIosFirst : LinkStats :=
  { originalUrl := "https://x.com", clicksByDevice := [("ios", 2), ("android", 1)] }

/-- C9 counterexample: the same stats Outcome — identical fields and the
same two-entry device map, merely enumerated in the two orders a Go
`range` over the map may produce — formats to two different texts, so
formatting the same Outcome twice is not byte-identical. -/
theorem c9_counterexample :
    statsDevicesAndroidFirst.clicksByDevice.Perm
      statsDevicesIosFirst.clicksByDevice ∧
    (statsDevicesAndroidFirst.clicksByDevice.map Prod.fst).Nodup ∧
    formatStatsText "a" statsDevicesAndroidFirst (fun _ => "t") ≠
      formatStatsText "a" statsDevicesIosFirst (fun _ => "t") := by
  refine ⟨by decide, by decide, by decide⟩

/-- C9 (amended): `formatStatsText` is a pure function of the Outcome and
the enumeration order of its click-breakdown map; when the breakdown has
at most one entry every enumeration is the same list, so formatting the
same Outcome twice is byte-identical. With two or more entries the bytes
depend on the enumeration order, which the Go runtime does not fix (see
the counterexample). -/
theorem c9_format_deterministic_small_breakdown
    (a : String) (formatTime : Int → String) (s1 s2 : LinkStats)
    (hurl : s1.originalUrl = s2.originalUrl) (ht : s1.title = s2.title)
    (hc : s1.clickCount = s2.clickCount) (he : s1.expiresAt = s2.expiresAt)
    (hperm : s1.clicksByDevice.Perm s2.clicksByDevice)
    (hsmall : s1.clicksByDevice.length ≤ 1) :
    formatStatsText a s1 formatTime = formatStatsText a s2 formatTime := by
  have hdev : s1.clicksByDevice = s2.clicksByDevice := by
    rcases h1 : s1.clicksByDevice with _ | ⟨x, _ | ⟨y, t⟩⟩
    · rw [h1] at hperm
      exact (hperm.symm.eq_nil).symm
    · rw [h1] at hperm
      exact List.singleton_perm.mp hperm
    · rw [h1] at hsmall
      simp at hsmall
  simp only [formatStatsText, hurl, ht, hc, he, hdev]

/-- C9 witness: a one-entry breakdown formats identically across the two
(equal) enumerations. -/
theorem c9_format_deterministic_small_breakdown_witness :
    formatStatsText "a"
        { originalUrl := "u", clicksByDevice := [("web", 3)] } (fun _ => "t") =
      formatStatsText "a"
        { originalUrl := "u", clicksByDevice := [("web", 3)] } (fun _ => "t") :=
  c9_format_deterministic_small_breakdown "a" (fun _ => "t")
    { originalUrl := "u", clicksByDevice := [("web", 3)] }
    { originalUrl := "u", clicksByDevice := [("web", 3)] }
    rfl rfl rfl rfl (List.Perm.refl _) (by decide)

/-- C10: the `AlreadyExists` branch of `handleShortenCommand`
dereferences `*req.CustomAlias`: with an `alias=` modifier in the
argument text the handler renders the alias-taken message, but without
one the dereference hits a nil pointer (modelled as `panicNilDeref`). -/
theorem c10_already_exists_nil_deref_without_alias
    (chatID now : Int) (parseDuration : String → Option Int)
    (baseURL args u : String)
    (backend : CreateLinkRequest → CreateLinkResult)
    (hu : urlFindString args = some u)
    (hb : ∀ r, backend r = .err .alreadyExists) :
    (aliasFindSubmatch args = none →
      (handleShortenCommand chatID args now parseDuration baseURL backend).reply =
        .panicNilDeref) ∧
    (∀ a, aliasFindSubmatch args = some a →
      (handleShortenCommand chatID args now parseDuration baseURL backend).reply =
        .sent (msgAliasTaken a)) := by
  constructor
  · intro hn
    simp [handleShortenCommand, buildShortenRequest, hu, hn, createLinkRespond, hb]
  · intro a hsome
    simp [handleShortenCommand, buildShortenRequest, hu, hsome, createLinkRespond, hb]

/-- C10 witness: `/shorten https://x.com` (no `alias=` modifier) against
a backend answering `AlreadyExists` reaches the nil-pointer dereference. -/
theorem c10_already_exists_nil_deref_without_alias_witness :
    (handleShortenCommand 7 "https://x.com" 0 (fun _ => none) "b"
        (fun _ => .err .alreadyExists)).reply = .panicNilDeref :=
  (c10_already_exists_nil_deref_without_alias 7 0 (fun _ => none) "b"
    "https://x.com" "https://x.com" (fun _ => .err .alreadyExists)
    rfl (fun _ => rfl)).1 rfl

end GURLSBot

